import Mathlib

/-!
Shallow embedding of the RISE backend (src/main.py): the schedule
proposer, the profile/XP engine and the task lifecycle operations,
together with proofs of the spec's claims about them.

Modelling conventions:
* Mongo documents become Lean structures; the `_id` assigned by
  `create_document` is modelled by a counter `nextId` in the store state,
  stringified exactly as the code stringifies ObjectIds.
* Local datetimes built by the `iso` helper are modelled as minutes on a
  day line: `day * 1440 + hour * 60 + minute`, which preserves the
  ordering and the minute arithmetic of `datetime + timedelta`.
* Python `raise HTTPException` becomes an `Except` value; since the code
  may raise after some writes, every route returns the resulting store
  state alongside the `Except`, so frame conditions are expressible.
* Python `"low" in s` is substring containment, implemented over the
  character lists of the strings.
* The source field `end` of tasks and blocks is a Lean keyword and is
  named `stop` here.
-/

namespace RISE

/-- A stored task document (collection `task`); `id` is the stringified
`_id`, `start`/`stop` hold the ISO strings stored by the API. -/
structure Task where
  id : String
  title : String
  start : String
  stop : String
  category : String
  status : String
  deriving DecidableEq, Repr

/-- The singleton profile document (collection `profile`). Python ints
are modelled as `Int`. -/
structure Profile where
  id : String
  level : Int
  xp : Int
  streak : Int
  deriving DecidableEq, Repr

/-- The document store: the `task` collection, the (at most one)
`profile` document found by `find_one({})`, and the id counter standing
in for ObjectId generation. -/
structure DB where
  tasks : List Task
  profile : Option Profile
  nextId : Nat
  deriving DecidableEq, Repr

/-- HTTP error raised by `HTTPException(status_code, detail)`. -/
structure HTTPError where
  status_code : Nat
  detail : String
  deriving DecidableEq, Repr

/-- `pat` occurs as a contiguous sublist of `l`. -/
def listInfixOf (pat : List Char) : List Char → Bool
  | [] => pat.isEmpty
  | c :: cs => pat.isPrefixOf (c :: cs) || listInfixOf pat cs

/-- Python `pat in s` on strings: substring containment. -/
def strContains (s pat : String) : Bool :=
  listInfixOf pat.toList s.toList

/-- Request body of `POST /api/onboarding/propose` (`OnboardingInput`).
`work_hours` and `energy_pattern` are `Optional` with pydantic defaults;
a `none` here models an explicit JSON `null`. -/
structure OnboardingInput where
  goals : List String
  blocker : String
  work_hours : Option String := some "9-6"
  energy_pattern : Option String := some "low-evening"
  deriving DecidableEq, Repr

/-- A proposed (non-persisted) block of the onboarding plan; times are
minutes on the day line (see module conventions). -/
structure ProposedBlock where
  title : String
  start : Nat
  stop : Nat
  category : String
  deriving DecidableEq, Repr

/-- Response of `POST /api/onboarding/propose` (`OnboardingPlan`). -/
structure OnboardingPlan where
  protocol_name : String
  blocks : List ProposedBlock
  message : String
  deriving DecidableEq, Repr

/-- The `iso` helper of `propose_onboarding`: start at `hour:minute` of
`today + day_offset`, end `duration_min` minutes later. -/
def iso (today day_offset hour minute duration_min : Nat) : Nat × Nat :=
  let start_dt := (today + day_offset) * 1440 + hour * 60 + minute
  (start_dt, start_dt + duration_min)

/-- `propose_onboarding` (src/main.py): three fixed blocks, the
micro-learning slot chosen by whether `energy_pattern` contains "low".
`today` is the local calendar date at invocation time. -/
def propose_onboarding (today : Nat) (data : OnboardingInput) : OnboardingPlan :=
  let mindBlock : ProposedBlock :=
    if strContains (data.energy_pattern.getD "") "low" then
      let (s, e) := iso today 0 7 0 25
      { title := "Python Micro‑Learning", start := s, stop := e, category := "mind" }
    else
      let (s, e) := iso today 0 19 0 25
      { title := "Python Micro‑Learning", start := s, stop := e, category := "mind" }
  let (s₂, e₂) := iso today 0 12 30 40
  let fitnessBlock : ProposedBlock :=
    { title := "Zone 2 Run", start := s₂, stop := e₂, category := "fitness" }
  let (s₃, e₃) := iso today 0 18 0 45
  let vitalityBlock : ProposedBlock :=
    { title := "Meal Prep", start := s₃, stop := e₃, category := "vitality" }
  { protocol_name := "Base Protocol"
    blocks := [mindBlock, fitnessBlock, vitalityBlock]
    message := "Here is your new Base Protocol. Accept to generate your schedule and start earning XP." }

/-- Request item of `POST /api/onboarding/accept` (`TaskCreate`);
`status` has the pydantic default "scheduled". -/
structure TaskCreate where
  title : String
  start : String
  stop : String
  category : String
  status : String := "scheduled"
  deriving DecidableEq, Repr

/-- Response of `POST /api/onboarding/accept`. -/
structure AcceptResult where
  ok : Bool
  profile_id : String
  created : Nat
  deriving DecidableEq, Repr

/-- `create_document("task", doc)`: append the document with a fresh id. -/
def createTask (t : TaskCreate) (s : DB) : DB × String :=
  let newId := toString s.nextId
  ({ s with
      tasks := s.tasks ++ [{ id := newId, title := t.title, start := t.start,
                             stop := t.stop, category := t.category, status := t.status }]
      nextId := s.nextId + 1 },
   newId)

/-- The task-insertion loop of `accept_onboarding`. -/
def insertTasks : List TaskCreate → DB → DB × List String
  | [], s => (s, [])
  | t :: ts, s =>
    let (s₁, newId) := createTask t s
    let (s₂, rest) := insertTasks ts s₁
    (s₂, newId :: rest)

/-- `accept_onboarding` (src/main.py): create the profile if absent,
then insert every task of the plan. -/
def accept_onboarding (plan : List TaskCreate) (s : DB) : DB × AcceptResult :=
  let (s₁, profile_id) :=
    match s.profile with
    | none =>
      let pid := toString s.nextId
      ({ s with profile := some { id := pid, level := 1, xp := 0, streak := 0 }
                nextId := s.nextId + 1 }, pid)
    | some profile => (s, profile.id)
  let (s₂, inserted) := insertTasks plan s₁
  (s₂, { ok := true, profile_id := profile_id, created := inserted.length })

/-- The sort key of `list_tasks`: ascending comparison of the `start`
strings (Python's `sort(key=...)` on strings). -/
def startLe (a b : Task) : Bool :=
  a.start ≤ b.start

/-- `list_tasks` (src/main.py): optional status filter (Python's
falsy test skips the filter for `None` and for the empty string), then a
stable sort by the `start` string. -/
def list_tasks (status : Option String) (s : DB) : List Task :=
  let rows :=
    match status with
    | some st => if st = "" then s.tasks else s.tasks.filter (fun r => r.status == st)
    | none => s.tasks
  rows.mergeSort startLe

/-- The category → XP table of `complete_task`, including the `.get`
default of 10 for unknown categories. -/
def xp_map (category : String) : Int :=
  if category = "fitness" then 20
  else if category = "mind" then 15
  else if category = "vitality" then 10
  else if category = "wealth" then 15
  else if category = "charisma" then 10
  else 10

/-- The `while new_xp >= 100` loop of `complete_task`: level up and
subtract 100 until xp is below 100. -/
def levelLoop (xp level : Int) : Int × Int :=
  if 100 ≤ xp then levelLoop (xp - 100) (level + 1) else (xp, level)
termination_by xp.toNat
decreasing_by simp_wf; omega

unseal levelLoop

/-- Response of `POST /api/tasks/{id}/complete`. -/
structure CompleteResult where
  ok : Bool
  xp_gain : Int
  deriving DecidableEq, Repr

/-- `update_one` on the task collection: set `status := "done"` on the
first task matching the id (the `updated_at` timestamp is outside the
model). -/
def markDone (task_id : String) : List Task → List Task
  | [] => []
  | t :: ts =>
    if t.id == task_id then { t with status := "done" } :: ts
    else t :: markDone task_id ts

/-- `bson.ObjectId(oid)` accepts a 24-character hexadecimal string;
any other string raises `InvalidId`. `complete_task` parses its path
parameter with `ObjectId(task_id)` before the store lookup. -/
def isValidObjectId (oid : String) : Bool :=
  oid.length == 24 && oid.toList.all (fun c =>
    c.isDigit || ('a' ≤ c && c ≤ 'f') || ('A' ≤ c && c ≤ 'F'))

/-- `complete_task` (src/main.py): `ObjectId(task_id)` raises
`InvalidId` on a malformed id, which the framework surfaces as an
unhandled-exception HTTP 500; then 404 on unknown id; otherwise set the
task to done, look up the gain, and award it to the profile when one
exists. The resulting store state is returned even on error, so the
absence of writes is part of the statement. -/
def complete_task (task_id : String) (s : DB) : DB × Except HTTPError CompleteResult :=
  if isValidObjectId task_id then
    match s.tasks.find? (fun t => t.id == task_id) with
    | none => (s, .error { status_code := 404, detail := "Task not found" })
    | some task =>
      let s₁ := { s with tasks := markDone task_id s.tasks }
      let xp_gain := xp_map task.category
      match s₁.profile with
      | none => (s₁, .ok { ok := true, xp_gain := xp_gain })
      | some profile =>
        let (new_xp, new_level) := levelLoop (profile.xp + xp_gain) profile.level
        ({ s₁ with profile := some { profile with xp := new_xp, level := new_level } },
         .ok { ok := true, xp_gain := xp_gain })
  else
    (s, .error { status_code := 500, detail := "Internal Server Error" })

/-- `get_profile` (src/main.py): defaults when no profile exists. -/
def get_profile (s : DB) : Int × Int × Int :=
  match s.profile with
  | none => (1, 0, 0)
  | some p => (p.level, p.xp, p.streak)

/-! ### Helper lemmas -/

/-- The level-up loop always exits with `xp < 100`. -/
theorem levelLoop_fst_lt (xp level : Int) : (levelLoop xp level).1 < 100 := by
  induction xp, level using levelLoop.induct with
  | case1 xp level h ih => rw [levelLoop, if_pos h]; exact ih
  | case2 xp level h => rw [levelLoop, if_neg h]; omega

/-- Starting from nonnegative xp, the level-up loop exits with
nonnegative xp. -/
theorem levelLoop_fst_nonneg (xp level : Int) (h0 : 0 ≤ xp) :
    0 ≤ (levelLoop xp level).1 := by
  induction xp, level using levelLoop.induct with
  | case1 xp level h ih => rw [levelLoop, if_pos h]; exact ih (by omega)
  | case2 xp level h => rw [levelLoop, if_neg h]; omega

/-- The level-up loop never decreases the level. -/
theorem levelLoop_snd_le (xp level : Int) : level ≤ (levelLoop xp level).2 := by
  induction xp, level using levelLoop.induct with
  | case1 xp level h ih => rw [levelLoop, if_pos h]; omega
  | case2 xp level h => rw [levelLoop, if_neg h]

/-- Every entry of the gain table, the default included, is positive. -/
theorem xp_map_pos (category : String) : 0 < xp_map category := by
  unfold xp_map
  repeat' split
  all_goals norm_num

/-- `complete_task` on a malformed id: the ObjectId parse fails before
any store access, so the store comes back untouched. -/
theorem complete_task_invalid_id (task_id : String) (s : DB)
    (hvalid : isValidObjectId task_id = false) :
    complete_task task_id s =
      (s, .error { status_code := 500, detail := "Internal Server Error" }) := by
  unfold complete_task
  rw [hvalid]
  simp

/-- `complete_task` on a well-formed id absent from the task
collection. -/
theorem complete_task_not_found (task_id : String) (s : DB)
    (hvalid : isValidObjectId task_id = true)
    (h : s.tasks.find? (fun t => t.id == task_id) = none) :
    complete_task task_id s = (s, .error { status_code := 404, detail := "Task not found" }) := by
  unfold complete_task
  rw [hvalid, h]
  simp

/-- `complete_task` on a found task when no profile document exists. -/
theorem complete_task_found_none (task_id : String) (s : DB) (t : Task)
    (hvalid : isValidObjectId task_id = true)
    (hfind : s.tasks.find? (fun x => x.id == task_id) = some t)
    (hp : s.profile = none) :
    complete_task task_id s =
      (DB.mk (markDone task_id s.tasks) none s.nextId,
       .ok { ok := true, xp_gain := xp_map t.category }) := by
  unfold complete_task
  rw [hvalid]
  simp only [if_true]
  rw [hfind]
  simp [hp]

/-- `complete_task` on a found task when the profile document exists:
the task is marked done and the gain is pushed through the level loop. -/
theorem complete_task_found_some (task_id : String) (s : DB) (t : Task) (p : Profile)
    (hvalid : isValidObjectId task_id = true)
    (hfind : s.tasks.find? (fun x => x.id == task_id) = some t)
    (hp : s.profile = some p) :
    complete_task task_id s =
      (DB.mk (markDone task_id s.tasks)
         (some (Profile.mk p.id
            (levelLoop (p.xp + xp_map t.category) p.level).2
            (levelLoop (p.xp + xp_map t.category) p.level).1
            p.streak))
         s.nextId,
       .ok { ok := true, xp_gain := xp_map t.category }) := by
  unfold complete_task
  rw [hvalid]
  simp only [if_true]
  rw [hfind]
  simp [hp]

/-- A merge sort by `startLe` is sorted by ascending `start`. -/
theorem mergeSort_startLe_sorted (l : List Task) :
    List.Sorted (fun a b : Task => a.start ≤ b.start) (l.mergeSort startLe) := by
  have h := @List.sorted_mergeSort Task startLe
    (fun a b c hab hbc => by
      simp only [startLe, decide_eq_true_eq] at *
      exact le_trans hab hbc)
    (fun a b => by
      simp only [startLe, Bool.or_eq_true, decide_eq_true_eq]
      exact le_total a.start b.start)
    l
  exact h.imp (fun hab => by simpa [startLe] using hab)

/-! ### Claims -/

/-- C1: For every XP award performed during task completion, if the
stored profile starts with xp in `[0,100)` and level ≥ 1, then after the
award the persisted profile satisfies `0 ≤ xp < 100` and `level ≥ 1`,
and level is greater than or equal to its value before the award. -/
theorem complete_task_xp_invariant (task_id : String) (s s' : DB) (p : Profile)
    (r : CompleteResult)
    (hp : s.profile = some p) (hx0 : 0 ≤ p.xp) (hx1 : p.xp < 100) (hl : 1 ≤ p.level)
    (hok : complete_task task_id s = (s', Except.ok r)) :
    ∃ p' : Profile, s'.profile = some p' ∧ 0 ≤ p'.xp ∧ p'.xp < 100 ∧ 1 ≤ p'.level
      ∧ p.level ≤ p'.level := by
  cases hvalid : isValidObjectId task_id with
  | false =>
    rw [complete_task_invalid_id task_id s hvalid] at hok
    simp at hok
  | true =>
  cases hfind : s.tasks.find? (fun t => t.id == task_id) with
  | none =>
    rw [complete_task_not_found task_id s hvalid hfind] at hok
    simp at hok
  | some task =>
    rw [complete_task_found_some task_id s task p hvalid hfind hp, Prod.mk.injEq] at hok
    obtain ⟨hs, -⟩ := hok
    subst hs
    refine ⟨_, rfl, ?_, ?_, ?_, ?_⟩
    · exact levelLoop_fst_nonneg _ _ (by have := xp_map_pos task.category; omega)
    · exact levelLoop_fst_lt _ _
    · exact le_trans hl (levelLoop_snd_le _ _)
    · exact levelLoop_snd_le _ _

/-- Witness for C1 at a concrete store: one fitness task, profile
`xp=90, level=3`. -/
theorem complete_task_xp_invariant_witness :
    ∃ p' : Profile,
      (DB.mk [Task.mk "aaaaaaaaaaaaaaaaaaaaaaaa" "Run" "a" "b" "fitness" "done"]
        (some (Profile.mk "0" 4 10 0)) 2).profile = some p'
      ∧ 0 ≤ p'.xp ∧ p'.xp < 100 ∧ 1 ≤ p'.level ∧ (3 : Int) ≤ p'.level :=
  complete_task_xp_invariant "aaaaaaaaaaaaaaaaaaaaaaaa"
    (DB.mk [Task.mk "aaaaaaaaaaaaaaaaaaaaaaaa" "Run" "a" "b" "fitness" "scheduled"]
      (some (Profile.mk "0" 3 90 0)) 2)
    (DB.mk [Task.mk "aaaaaaaaaaaaaaaaaaaaaaaa" "Run" "a" "b" "fitness" "done"]
      (some (Profile.mk "0" 4 10 0)) 2)
    (Profile.mk "0" 3 90 0) (CompleteResult.mk true 20)
    rfl (by decide) (by decide) (by decide) rfl

/-- C2: propose returns exactly three blocks in fixed order: a
25-minute mind block at 07:00 of today when `energy_pattern` contains
"low" and at 19:00 otherwise, then a 40-minute fitness block at 12:30,
then a 45-minute vitality block at 18:00, the latter two independent of
the input. -/
theorem propose_onboarding_blocks (today : Nat) (data : OnboardingInput) :
    (propose_onboarding today data).blocks =
      [ProposedBlock.mk "Python Micro‑Learning"
         (if strContains (data.energy_pattern.getD "") "low"
           then today * 1440 + 7 * 60 else today * 1440 + 19 * 60)
         ((if strContains (data.energy_pattern.getD "") "low"
           then today * 1440 + 7 * 60 else today * 1440 + 19 * 60) + 25)
         "mind",
       ProposedBlock.mk "Zone 2 Run"
         (today * 1440 + 12 * 60 + 30) (today * 1440 + 12 * 60 + 30 + 40) "fitness",
       ProposedBlock.mk "Meal Prep"
         (today * 1440 + 18 * 60) (today * 1440 + 18 * 60 + 45) "vitality"] := by
  by_cases h : strContains (data.energy_pattern.getD "") "low" = true <;>
    simp [propose_onboarding, iso, h]

/-- C3: completing a fitness task from a stored profile with `xp=90`,
`level=3` persists `xp=10`, `level=4` and returns `xp_gain=20`. -/
theorem complete_fitness_rollover :
    complete_task "aaaaaaaaaaaaaaaaaaaaaaaa"
      (DB.mk [Task.mk "aaaaaaaaaaaaaaaaaaaaaaaa" "Zone 2 Run" "a" "b" "fitness" "scheduled"]
        (some (Profile.mk "0" 3 90 0)) 2) =
    (DB.mk [Task.mk "aaaaaaaaaaaaaaaaaaaaaaaa" "Zone 2 Run" "a" "b" "fitness" "done"]
      (some (Profile.mk "0" 4 10 0)) 2,
     Except.ok (CompleteResult.mk true 20)) := rfl

/-- C4: task completion is not idempotent: for every task already in
status done, calling complete on it again succeeds, re-runs the full XP
award path, and grants the category's XP gain to the profile a second
time. -/
theorem complete_done_task_reawards (task_id : String) (s : DB) (t : Task) (p : Profile)
    (hvalid : isValidObjectId task_id = true)
    (hfind : s.tasks.find? (fun x => x.id == task_id) = some t)
    (hdone : t.status = "done")
    (hp : s.profile = some p) :
    complete_task task_id s =
      (DB.mk (markDone task_id s.tasks)
         (some (Profile.mk p.id
            (levelLoop (p.xp + xp_map t.category) p.level).2
            (levelLoop (p.xp + xp_map t.category) p.level).1
            p.streak))
         s.nextId,
       Except.ok { ok := true, xp_gain := xp_map t.category }) :=
  complete_task_found_some task_id s t p hvalid hfind hp

/-- Witness for C4: a task already done is completed again and the
profile gains another 15 mind XP. -/
theorem complete_done_task_reawards_witness :
    complete_task "bbbbbbbbbbbbbbbbbbbbbbbb"
      (DB.mk [Task.mk "bbbbbbbbbbbbbbbbbbbbbbbb" "Study" "a" "b" "mind" "done"]
        (some (Profile.mk "0" 1 50 2)) 7) =
      (DB.mk [Task.mk "bbbbbbbbbbbbbbbbbbbbbbbb" "Study" "a" "b" "mind" "done"]
        (some (Profile.mk "0" 1 65 2)) 7,
       Except.ok { ok := true, xp_gain := 15 }) :=
  complete_done_task_reawards "bbbbbbbbbbbbbbbbbbbbbbbb"
    (DB.mk [Task.mk "bbbbbbbbbbbbbbbbbbbbbbbb" "Study" "a" "b" "mind" "done"]
      (some (Profile.mk "0" 1 50 2)) 7)
    (Task.mk "bbbbbbbbbbbbbbbbbbbbbbbb" "Study" "a" "b" "mind" "done")
    (Profile.mk "0" 1 50 2) rfl rfl rfl rfl

/-- C5 counterexample: the id "9" is not present in the (empty) task
store, yet completing it does not fail with 404: `ObjectId("9")` raises
`InvalidId` before the lookup, surfaced as HTTP 500. -/
theorem complete_unknown_task_404_counterexample :
    (DB.mk [] none 0).tasks.find? (fun t => t.id == "9") = none
      ∧ complete_task "9" (DB.mk [] none 0) =
          (DB.mk [] none 0, Except.error (HTTPError.mk 500 "Internal Server Error"))
      ∧ HTTPError.mk 500 "Internal Server Error" ≠ HTTPError.mk 404 "Task not found" :=
  ⟨rfl, rfl, by decide⟩

/-- C5 (amended): for every task identifier that is a well-formed
ObjectId (24 hex digits) and not present in the task store, the
complete operation fails with a 404 NotFound error and the whole store,
the profile record included, is left unmodified. -/
theorem complete_valid_unknown_task_404 (task_id : String) (s : DB)
    (hvalid : isValidObjectId task_id = true)
    (h : s.tasks.find? (fun t => t.id == task_id) = none) :
    complete_task task_id s = (s, Except.error (HTTPError.mk 404 "Task not found"))
      ∧ (complete_task task_id s).1.profile = s.profile := by
  have e := complete_task_not_found task_id s hvalid h
  exact ⟨e, by rw [e]⟩

/-- Witness for the amended C5: completing the absent well-formed id
"ffffffffffffffffffffffff" on a store holding one other task fails with
404 and changes nothing. -/
theorem complete_valid_unknown_task_404_witness :
    complete_task "ffffffffffffffffffffffff"
      (DB.mk [Task.mk "bbbbbbbbbbbbbbbbbbbbbbbb" "Study" "a" "b" "mind" "scheduled"]
        (some (Profile.mk "0" 1 50 2)) 7) =
      (DB.mk [Task.mk "bbbbbbbbbbbbbbbbbbbbbbbb" "Study" "a" "b" "mind" "scheduled"]
        (some (Profile.mk "0" 1 50 2)) 7,
       Except.error (HTTPError.mk 404 "Task not found"))
      ∧ (complete_task "ffffffffffffffffffffffff"
          (DB.mk [Task.mk "bbbbbbbbbbbbbbbbbbbbbbbb" "Study" "a" "b" "mind" "scheduled"]
            (some (Profile.mk "0" 1 50 2)) 7)).1.profile =
        (DB.mk [Task.mk "bbbbbbbbbbbbbbbbbbbbbbbb" "Study" "a" "b" "mind" "scheduled"]
          (some (Profile.mk "0" 1 50 2)) 7).profile :=
  complete_valid_unknown_task_404 "ffffffffffffffffffffffff"
    (DB.mk [Task.mk "bbbbbbbbbbbbbbbbbbbbbbbb" "Study" "a" "b" "mind" "scheduled"]
      (some (Profile.mk "0" 1 50 2)) 7) rfl rfl

/-- C6: if no profile document exists when an existing task is
completed, the award is a no-op on the profile collection, while the
task is still set to done and the response still reports ok=true with
the category's xp_gain. -/
theorem complete_no_profile_noop (task_id : String) (s : DB) (t : Task)
    (hvalid : isValidObjectId task_id = true)
    (hfind : s.tasks.find? (fun x => x.id == task_id) = some t)
    (hp : s.profile = none) :
    complete_task task_id s =
      (DB.mk (markDone task_id s.tasks) none s.nextId,
       Except.ok { ok := true, xp_gain := xp_map t.category }) :=
  complete_task_found_none task_id s t hvalid hfind hp

/-- Witness for C6: completing a vitality task with no profile present
marks it done, creates no profile, and reports gain 10. -/
theorem complete_no_profile_noop_witness :
    complete_task "cccccccccccccccccccccccc"
      (DB.mk [Task.mk "cccccccccccccccccccccccc" "Meal Prep" "a" "b" "vitality" "scheduled"] none 3) =
      (DB.mk [Task.mk "cccccccccccccccccccccccc" "Meal Prep" "a" "b" "vitality" "done"] none 3,
       Except.ok { ok := true, xp_gain := 10 }) :=
  complete_no_profile_noop "cccccccccccccccccccccccc"
    (DB.mk [Task.mk "cccccccccccccccccccccccc" "Meal Prep" "a" "b" "vitality" "scheduled"] none 3)
    (Task.mk "cccccccccccccccccccccccc" "Meal Prep" "a" "b" "vitality" "scheduled") rfl rfl rfl

/-- C7: for every task whose category is not one of mind, fitness,
vitality, wealth, charisma, completing it uses the default gain of 10:
the profile's XP increases by exactly 10 (modulo level rollover) and the
response carries xp_gain=10. -/
theorem complete_unknown_category_default (task_id : String) (s : DB) (t : Task) (p : Profile)
    (hvalid : isValidObjectId task_id = true)
    (hfind : s.tasks.find? (fun x => x.id == task_id) = some t)
    (hp : s.profile = some p)
    (hcat : t.category ∉ (["mind", "fitness", "vitality", "wealth", "charisma"] : List String)) :
    xp_map t.category = 10 ∧
    complete_task task_id s =
      (DB.mk (markDone task_id s.tasks)
         (some (Profile.mk p.id
            (levelLoop (p.xp + 10) p.level).2
            (levelLoop (p.xp + 10) p.level).1
            p.streak))
         s.nextId,
       Except.ok { ok := true, xp_gain := 10 }) := by
  simp only [List.mem_cons, List.mem_singleton, not_or] at hcat
  obtain ⟨hm, hf, hv, hw, hc⟩ := hcat
  have h10 : xp_map t.category = 10 := by
    simp [xp_map, hm, hf, hv, hw, hc]
  refine ⟨h10, ?_⟩
  rw [complete_task_found_some task_id s t p hvalid hfind hp, h10]

/-- Witness for C7: a task with category "unknown-tag" awards exactly
10 XP. -/
theorem complete_unknown_category_default_witness :
    xp_map "unknown-tag" = 10 ∧
    complete_task "dddddddddddddddddddddddd"
      (DB.mk [Task.mk "dddddddddddddddddddddddd" "Misc" "a" "b" "unknown-tag" "scheduled"]
        (some (Profile.mk "0" 2 37 5)) 4) =
      (DB.mk [Task.mk "dddddddddddddddddddddddd" "Misc" "a" "b" "unknown-tag" "done"]
        (some (Profile.mk "0" 2 47 5)) 4,
       Except.ok { ok := true, xp_gain := 10 }) :=
  complete_unknown_category_default "dddddddddddddddddddddddd"
    (DB.mk [Task.mk "dddddddddddddddddddddddd" "Misc" "a" "b" "unknown-tag" "scheduled"]
      (some (Profile.mk "0" 2 37 5)) 4)
    (Task.mk "dddddddddddddddddddddddd" "Misc" "a" "b" "unknown-tag" "scheduled")
    (Profile.mk "0" 2 37 5) rfl rfl rfl (by decide)

/-- C8: for every set of stored tasks and every insertion order, the
list-tasks operation returns the (status-filtered) tasks sorted
ascending by their `start` field: the output is pairwise ordered by
`start` and is a permutation of the filtered rows. -/
theorem list_tasks_sorted_by_start (status : Option String) (s : DB) :
    List.Sorted (fun a b : Task => a.start ≤ b.start) (list_tasks status s)
      ∧ (list_tasks status s).Perm
          (match status with
           | some st => if st = "" then s.tasks else s.tasks.filter (fun r => r.status == st)
           | none => s.tasks) := by
  unfold list_tasks
  exact ⟨mergeSort_startLe_sorted _, List.mergeSort_perm _ _⟩

/-- C9: propose is a pure function of today's date and energy_pattern:
two invocations on the same date with the same energy_pattern return
identical plans, regardless of how goals, blocker and work_hours differ
between the two runs. -/
theorem propose_onboarding_pure (today : Nat) (d₁ d₂ : OnboardingInput)
    (h : d₁.energy_pattern = d₂.energy_pattern) :
    propose_onboarding today d₁ = propose_onboarding today d₂ := by
  unfold propose_onboarding
  rw [h]

/-- Witness for C9: two inputs with equal energy_pattern but different
goals, blocker and work_hours yield the same plan. -/
theorem propose_onboarding_pure_witness :
    (OnboardingInput.mk ["Learn Python"] "time" (some "9-6") (some "low-evening")).energy_pattern
      = (OnboardingInput.mk ["Run", "Sleep more"] "energy" (some "8-4") (some "low-evening")).energy_pattern
    ∧ propose_onboarding 20000
        (OnboardingInput.mk ["Learn Python"] "time" (some "9-6") (some "low-evening"))
      = propose_onboarding 20000
        (OnboardingInput.mk ["Run", "Sleep more"] "energy" (some "8-4") (some "low-evening")) :=
  ⟨rfl, propose_onboarding_pure 20000
    (OnboardingInput.mk ["Learn Python"] "time" (some "9-6") (some "low-evening"))
    (OnboardingInput.mk ["Run", "Sleep more"] "energy" (some "8-4") (some "low-evening")) rfl⟩

/-- C10: accepting a plan with an empty task list inserts no tasks and
returns ok=true with created=0, and still ensures a profile exists: if
no profile is found one is created with level=1, xp=0, streak=0,
otherwise the existing profile is reused and its identifier returned. -/
theorem accept_onboarding_empty_plan (s : DB) :
    accept_onboarding [] s =
      (match s.profile with
       | none =>
         (DB.mk s.tasks (some (Profile.mk (toString s.nextId) 1 0 0)) (s.nextId + 1),
          AcceptResult.mk true (toString s.nextId) 0)
       | some q => (s, AcceptResult.mk true q.id 0)) := by
  cases hp : s.profile <;> simp [accept_onboarding, insertTasks, hp]

end RISE
